import Mathlib

/-
Verification of the adaptive grid-trading engine (kuBot-futures).

The definitions below are a shallow embedding of `src/main_bot.py` and
`src/utils.py`.  Machine floats are modelled as exact rationals (ℚ); the
I/O boundary (order placement on the exchange) is modelled as an explicit
oracle `place : Side → ℚ → ℚ → Option Order` passed to the functions that
call `place_order` in the source, so that both the sandbox path (always
succeeds, echoing side/price/size) and the failure path (`None`) are
covered.
-/

namespace KuBot

/-- Order side, the buy/sell strings in the source. -/
inductive Side
  | buy
  | sell
deriving DecidableEq

/-- Order status, the active/filled/cancelled strings in the source. -/
inductive OrderStatus
  | active
  | filled
  | cancelled
deriving DecidableEq

/-- The `Order` dataclass (main_bot.py lines 51-61); datetime fields omitted. -/
structure Order where
  order_id : String
  symbol : String
  side : Side
  size : ℚ
  price : ℚ
  status : OrderStatus
deriving DecidableEq

/-- The `GridConfig` dataclass (main_bot.py lines 36-49). -/
structure GridConfig where
  symbol : String
  leverage : ℕ
  grid_size : ℕ
  budget : ℚ
  upper_bound : ℚ
  lower_bound : ℚ
  spread : ℚ
  increment : ℚ
  stop_loss : ℚ
  take_profit : ℚ
  atr_period : ℕ := 14
deriving DecidableEq

/-- One OHLC candle row; the source reads `kline[2]`, `kline[3]`, `kline[4]`
as high, low, close (main_bot.py lines 229-231). -/
structure Kline where
  high : ℚ
  low : ℚ
  close : ℚ
deriving DecidableEq

/-- The true range at index `i ≥ 1` of the OHLC series: body of the loop in
`ATRCalculator.calculate_atr` (main_bot.py lines 124-129). -/
def trueRangeAt (highs lows closes : List ℚ) (i : ℕ) : ℚ :=
  max (highs.getD i 0 - lows.getD i 0)
    (max |highs.getD i 0 - closes.getD (i - 1) 0| |lows.getD i 0 - closes.getD (i - 1) 0|)

/-- The list `true_ranges` built by the loop `for i in range(1, len(highs))`
(main_bot.py lines 123-129). -/
def trueRanges (highs lows closes : List ℚ) : List ℚ :=
  (List.range (highs.length - 1)).map (fun j => trueRangeAt highs lows closes (j + 1))

/-- Function `ATRCalculator.calculate_atr` (main_bot.py lines 117-135): fewer than
period+1 samples give 0; fewer true ranges than the period give the average
of all of them; otherwise the simple average of the last `period` true
ranges (`true_ranges[-period:]`). -/
def calculate_atr (highs lows closes : List ℚ) (period : ℕ) : ℚ :=
  if highs.length < period + 1 then 0
  else if (trueRanges highs lows closes).length < period then
    (trueRanges highs lows closes).sum / ((trueRanges highs lows closes).length : ℚ)
  else
    ((trueRanges highs lows closes).drop
      ((trueRanges highs lows closes).length - period)).sum / (period : ℚ)

/-- The hardcoded `atr_multiplier = 2.0` (main_bot.py line 237). -/
def atr_multiplier : ℚ := 2

/-- The ATR-band computation of `calculate_atr_bounds`
(main_bot.py lines 237-239): `(price - atr*mult, price + atr*mult)`. -/
def atr_bounds (current_price atr : ℚ) : ℚ × ℚ :=
  (current_price - atr * atr_multiplier, current_price + atr * atr_multiplier)

/-- Function `GridTradingBot.calculate_atr_bounds` (main_bot.py lines 220-255): with no
candle data it returns the fixed 5% band, otherwise the ATR band around the
current price.  The candle fetch and price fetch are parameters. -/
def calculate_atr_bounds (klines : List Kline) (current_price : ℚ) : ℚ × ℚ :=
  if klines = [] then (current_price * (95 / 100), current_price * (105 / 100))
  else
    atr_bounds current_price
      (calculate_atr (klines.map Kline.high) (klines.map Kline.low)
        (klines.map Kline.close) 14)

/-- The quantity `position_size = budget / (grid_size * 2)` (main_bot.py line 263). -/
def position_size (grid_size : ℕ) (budget : ℚ) : ℚ :=
  budget / ((grid_size : ℚ) * 2)

/-- Function `GridTradingBot.calculate_grid_parameters` (main_bot.py lines 257-267):
returns `(spread, increment)`. -/
def calculate_grid_parameters (grid_size : ℕ) (budget lower_bound upper_bound : ℚ) :
    ℚ × ℚ :=
  let price_range := upper_bound - lower_bound
  let spread := price_range / (grid_size : ℚ)
  let increment := position_size grid_size budget / lower_bound
  (spread, increment)

/-- The sandbox branch of `GridTradingBot.place_order` (main_bot.py lines
363-376): always succeeds, echoing side, price and size into the order. -/
def sandboxPlace (side : Side) (price size : ℚ) : Option Order :=
  some { order_id := "test", symbol := "BTC-USDT", side := side, size := size,
         price := price, status := OrderStatus.active }

/-- Function `GridTradingBot.create_initial_orders` (main_bot.py lines 314-358): buys at
`current_price - (i+1)*spread` kept when `price >= lower_bound`, then sells at
`current_price + (i+1)*spread` kept when `price <= upper_bound`, each of size
`increment`; a `None` from the placement oracle is skipped. -/
def create_initial_orders (place : Side → ℚ → ℚ → Option Order)
    (cfg : GridConfig) (current_price : ℚ) : List Order :=
  let buys := (List.range (cfg.grid_size / 2)).filterMap (fun i =>
    let price := current_price - ((i : ℚ) + 1) * cfg.spread
    if cfg.lower_bound ≤ price then place Side.buy price cfg.increment else none)
  let sells := (List.range (cfg.grid_size / 2)).filterMap (fun i =>
    let price := current_price + ((i : ℚ) + 1) * cfg.spread
    if price ≤ cfg.upper_bound then place Side.sell price cfg.increment else none)
  buys ++ sells

/-- The mirror computation of `handle_filled_order` (main_bot.py lines
411-418): a filled buy mirrors to a sell one spread above, a filled sell to a
buy one spread below. -/
def mirrorOf (side : Side) (price spread : ℚ) : Side × ℚ :=
  match side with
  | Side.buy => (Side.sell, price + spread)
  | Side.sell => (Side.buy, price - spread)

/-- The bounds check on the mirror order (main_bot.py lines 421-422). -/
def mirror_in_bounds (cfg : GridConfig) (side : Side) (price : ℚ) : Bool :=
  (decide (side = Side.buy) && decide (cfg.lower_bound ≤ price)) ||
  (decide (side = Side.sell) && decide (price ≤ cfg.upper_bound))

/-- The PnL ledger persisted by `DataPersistence.save_pnl` / loaded by
`load_pnl` (main_bot.py lines 101-112): total plus the trade sequence
(timestamps omitted, each trade reduced to its profit). -/
structure PnlData where
  total_pnl : ℚ
  trades : List ℚ
deriving DecidableEq

/-- Function `GridTradingBot.update_pnl` (main_bot.py lines 451-462): adds the profit
to the total and appends it to the trade sequence. -/
def update_pnl (pnl : PnlData) (profit : ℚ) : PnlData :=
  { total_pnl := pnl.total_pnl + profit, trades := pnl.trades ++ [profit] }

/-- The mirror-placement phase of `GridTradingBot.handle_filled_order`
(main_bot.py lines 410-443): when the mirror is in bounds and placement
succeeds, the mirror is appended to the active set and the profit
`filled.size * spread` is fed into the PnL ledger; otherwise both are left
unchanged. -/
def handle_step (place : Side → ℚ → ℚ → Option Order)
    (cfg : GridConfig) (active : List Order) (pnl : PnlData) (filled : Order) :
    List Order × PnlData :=
  if mirror_in_bounds cfg (mirrorOf filled.side filled.price cfg.spread).1
      (mirrorOf filled.side filled.price cfg.spread).2 then
    match place (mirrorOf filled.side filled.price cfg.spread).1
        (mirrorOf filled.side filled.price cfg.spread).2 filled.size with
    | some mo => (active ++ [mo], update_pnl pnl (filled.size * cfg.spread))
    | none => (active, pnl)
  else (active, pnl)

/-- Function `GridTradingBot.handle_filled_order` (main_bot.py lines 405-449): the
mirror-placement phase, then (in every branch, main_bot.py line 446) removal
of the filled order from the active set by order id. -/
def handle_filled_order (place : Side → ℚ → ℚ → Option Order)
    (cfg : GridConfig) (active : List Order) (pnl : PnlData) (filled : Order) :
    List Order × PnlData :=
  ((handle_step place cfg active pnl filled).1.filter
      (fun o => o.order_id != filled.order_id),
   (handle_step place cfg active pnl filled).2)

/-- The fixed adjustment threshold `threshold = 0.05` (main_bot.py line 480). -/
def threshold : ℚ := 5 / 100

/-- The adjustment condition of `check_and_adjust_grid`
(main_bot.py lines 480-484). -/
def adjust_needed (cfg : GridConfig) (new_lower new_upper : ℚ) : Bool :=
  decide (threshold < |new_lower - cfg.lower_bound| / cfg.lower_bound) ||
  decide (threshold < |new_upper - cfg.upper_bound| / cfg.upper_bound)

/-- The post-time-gate body of `GridTradingBot.check_and_adjust_grid`
(main_bot.py lines 476-504): when the 5% drift condition holds, all active
orders are cancelled (`cancel_all_orders` clears the active set), the bounds,
spread and increment are recomputed into the config, and the ladder is
rebuilt; otherwise config and active set are untouched.  The freshly computed
bounds and the current price are parameters (they come from I/O). -/
def check_and_adjust_grid (place : Side → ℚ → ℚ → Option Order)
    (cfg : GridConfig) (active : List Order)
    (new_lower new_upper current_price : ℚ) : GridConfig × List Order :=
  if adjust_needed cfg new_lower new_upper then
    let p := calculate_grid_parameters cfg.grid_size cfg.budget new_lower new_upper
    let newCfg := { cfg with lower_bound := new_lower, upper_bound := new_upper,
                             spread := p.1, increment := p.2 }
    (newCfg, create_initial_orders place newCfg current_price)
  else (cfg, active)

/-- Outcome classification used by `PerformanceTracker` (utils.py): a streak
is typed win or loss. -/
inductive TradeType
  | win
  | loss
deriving DecidableEq

/-- The `PerformanceTracker` mutable statistics (utils.py lines 121-131);
the `start_time` field is omitted. -/
structure PerfState where
  trades_count : ℕ
  winning_trades : ℕ
  losing_trades : ℕ
  total_profit : ℚ
  total_loss : ℚ
  max_consecutive_wins : ℕ
  max_consecutive_losses : ℕ
  current_streak : ℕ
  current_streak_type : Option TradeType
deriving DecidableEq

/-- The fresh tracker built by `PerformanceTracker.__init__`
(utils.py lines 121-131). -/
def PerfState.fresh : PerfState :=
  { trades_count := 0, winning_trades := 0, losing_trades := 0,
    total_profit := 0, total_loss := 0, max_consecutive_wins := 0,
    max_consecutive_losses := 0, current_streak := 0,
    current_streak_type := none }

/-- Function `PerformanceTracker._update_streak` (utils.py lines 148-159). -/
def update_streak (s : PerfState) (t : TradeType) : PerfState :=
  let s1 :=
    if s.current_streak_type = some t then
      { s with current_streak := s.current_streak + 1 }
    else
      { s with current_streak := 1, current_streak_type := some t }
  match t with
  | TradeType.win =>
      { s1 with max_consecutive_wins := max s1.max_consecutive_wins s1.current_streak }
  | TradeType.loss =>
      { s1 with max_consecutive_losses := max s1.max_consecutive_losses s1.current_streak }

/-- Function `PerformanceTracker.add_trade` (utils.py lines 133-146): `profit > 0` is
routed to win accounting, anything else (zero included) to loss accounting. -/
def add_trade (s : PerfState) (profit : ℚ) : PerfState :=
  let s0 := { s with trades_count := s.trades_count + 1 }
  if 0 < profit then
    update_streak
      { s0 with winning_trades := s0.winning_trades + 1,
                total_profit := s0.total_profit + profit } TradeType.win
  else
    update_streak
      { s0 with losing_trades := s0.losing_trades + 1,
                total_loss := s0.total_loss + |profit| } TradeType.loss

/-- The outcome type the source assigns to a profit value
(utils.py lines 137-144). -/
def tradeType (profit : ℚ) : TradeType :=
  if 0 < profit then TradeType.win else TradeType.loss

/-- Length of the leading run of equal elements of a list. -/
def leadingRun : List TradeType → ℕ
  | [] => 0
  | [_] => 1
  | a :: b :: rest => if a = b then leadingRun (b :: rest) + 1 else 1

/-- Length of the trailing run of equal elements: the number of trailing
same-type outcomes of a trade sequence. -/
def trailingRun (l : List TradeType) : ℕ := leadingRun l.reverse

/-- The grid configuration of the end-to-end scenario: price 100, ATR 2,
multiplier 2, grid size 10, budget 1000. -/
def cfg1 : GridConfig :=
  { symbol := "BTC-USDT", leverage := 10, grid_size := 10, budget := 1000,
    upper_bound := 104, lower_bound := 96, spread := 4 / 5,
    increment := 50 / 96, stop_loss := 1 / 100, take_profit := 2 / 100 }

/-- The initial ladder of the end-to-end scenario. -/
def ladder1 : List Order := create_initial_orders sandboxPlace cfg1 100

/-- Number of orders of a given side in a list. -/
def countSide (s : Side) (l : List Order) : ℕ :=
  (l.filter (fun o => decide (o.side = s))).length

/-- An empty PnL ledger (the zeroed ledger `load_pnl` returns when no file
exists, main_bot.py line 112). -/
def pnl0 : PnlData := { total_pnl := 0, trades := [] }

/-- Fifteen constant candles at price 100. -/
def klinesConst : List Kline := List.replicate 15 { high := 100, low := 100, close := 100 }

/-- The filled sell order of the out-of-bounds mirror scenario: a sell at
96.5, whose mirror buy at 95.7 falls below the lower bound 96. -/
def fillSell965 : Order :=
  { order_id := "f1", symbol := "BTC-USDT", side := Side.sell, size := 1,
    price := 193 / 2, status := OrderStatus.active }

/-- The filled buy order of the in-bounds mirror scenario: a buy at 99.2,
whose mirror sell at 100.0 is within bounds. -/
def fillBuy992 : Order :=
  { order_id := "f2", symbol := "BTC-USDT", side := Side.buy, size := 1,
    price := 496 / 5, status := OrderStatus.active }

/-- The mirror sell order the sandbox placement returns for `fillBuy992`. -/
def mirrorSell100 : Order :=
  { order_id := "test", symbol := "BTC-USDT", side := Side.sell, size := 1,
    price := 100, status := OrderStatus.active }

/-- The buy rung at 99.2 of the scenario ladder. -/
def buyRung992 : Order :=
  { order_id := "test", symbol := "BTC-USDT", side := Side.buy, size := 50 / 96,
    price := 496 / 5, status := OrderStatus.active }

/-- Claim C1, counterexample: in the end-to-end scenario (price 100, ATR 2,
multiplier 2, grid size 10, budget 1000) the initial ladder does NOT contain
exactly 4 buy and 4 sell orders: the fifth rungs fall at 96.0 and 104.0,
exactly on the bounds, and the non-strict filters keep them. -/
theorem C1_counterexample :
    ¬ (countSide Side.buy ladder1 = 4 ∧ countSide Side.sell ladder1 = 4) := by
  with_unfolding_all decide

/-- Claim C1, amended: for price 100, ATR 2, multiplier 2 the bounds are
(96, 104); for grid size 10 and budget 1000 the spread is 0.8, the position
size 50 and the increment 50/96; and the initial ladder contains exactly
5 buy and 5 sell orders, the boundary rungs at 96.0 and 104.0 being kept by
the non-strict bound filters. -/
theorem C1_amended :
    atr_bounds 100 2 = (96, 104) ∧
    position_size 10 1000 = 50 ∧
    calculate_grid_parameters 10 1000 96 104 = (4 / 5, 50 / 96) ∧
    countSide Side.buy ladder1 = 5 ∧ countSide Side.sell ladder1 = 5 := by
  with_unfolding_all decide

/-- Claim C8, counterexample: the inputs lower = -4, upper = -2,
grid size 10, budget 1000 satisfy lower < upper, gridSize ≥ 2, budget > 0,
yet the computed increment (1000/20)/(-4) = -12.5 is negative, contradicting
increment > 0. -/
theorem C8_counterexample :
    (-4 : ℚ) < -2 ∧ (0 : ℚ) < 1000 ∧ 2 ≤ 10 ∧
    (calculate_grid_parameters 10 1000 (-4) (-2)).2 < 0 := by
  with_unfolding_all decide

/-- Claim C8, amended: for every lower, upper, gridSize, budget with
0 < lower < upper, gridSize ≥ 2 and budget > 0, the grid-parameter
computation yields spread = (upper-lower)/gridSize > 0 and
increment = (budget/(gridSize*2))/lower > 0. -/
theorem C8_amended (grid_size : ℕ) (budget lower upper : ℚ)
    (hlu : lower < upper) (hl : 0 < lower) (hg : 2 ≤ grid_size)
    (hb : 0 < budget) :
    (calculate_grid_parameters grid_size budget lower upper).1 =
      (upper - lower) / (grid_size : ℚ) ∧
    (calculate_grid_parameters grid_size budget lower upper).2 =
      budget / ((grid_size : ℚ) * 2) / lower ∧
    0 < (calculate_grid_parameters grid_size budget lower upper).1 ∧
    0 < (calculate_grid_parameters grid_size budget lower upper).2 := by
  have hgq : (0 : ℚ) < (grid_size : ℚ) := by
    exact_mod_cast lt_of_lt_of_le (by norm_num) hg
  refine ⟨rfl, rfl, ?_, ?_⟩
  · exact div_pos (sub_pos.mpr hlu) hgq
  · exact div_pos (div_pos hb (by linarith)) hl

/-- Claim C8 witness: the amended statement at grid size 10, budget 1000,
bounds (96, 104). -/
theorem C8_amended_witness :
    (calculate_grid_parameters 10 1000 96 104).1 = (104 - 96) / (10 : ℚ) ∧
    (calculate_grid_parameters 10 1000 96 104).2 = 1000 / ((10 : ℚ) * 2) / 96 ∧
    0 < (calculate_grid_parameters 10 1000 96 104).1 ∧
    0 < (calculate_grid_parameters 10 1000 96 104).2 :=
  C8_amended 10 1000 96 104 (by norm_num) (by norm_num) (by norm_num) (by norm_num)

/-- Claim C2: with grid spread s ≥ 0, a filled buy at price P mirrors to a
sell at P + s, a filled sell at P to a buy at P - s, and mirroring a mirror
returns to the original side at a price within one spread of the original. -/
theorem C2_mirror (P s : ℚ) (side : Side) (h : 0 ≤ s) :
    mirrorOf Side.buy P s = (Side.sell, P + s) ∧
    mirrorOf Side.sell P s = (Side.buy, P - s) ∧
    (mirrorOf (mirrorOf side P s).1 (mirrorOf side P s).2 s).1 = side ∧
    |(mirrorOf (mirrorOf side P s).1 (mirrorOf side P s).2 s).2 - P| ≤ s := by
  refine ⟨rfl, rfl, ?_, ?_⟩
  · cases side <;> rfl
  · cases side
    · simp only [mirrorOf]
      rw [show P + s - s - P = 0 by ring, abs_zero]
      exact h
    · simp only [mirrorOf]
      rw [show P - s + s - P = 0 by ring, abs_zero]
      exact h

/-- Claim C2 witness: the mirror relations at P = 99.2, s = 0.8. -/
theorem C2_mirror_witness :
    mirrorOf Side.buy (496 / 5) (4 / 5) = (Side.sell, 496 / 5 + 4 / 5) ∧
    mirrorOf Side.sell (496 / 5) (4 / 5) = (Side.buy, 496 / 5 - 4 / 5) ∧
    (mirrorOf (mirrorOf Side.buy (496 / 5) (4 / 5)).1
        (mirrorOf Side.buy (496 / 5) (4 / 5)).2 (4 / 5)).1 = Side.buy ∧
    |(mirrorOf (mirrorOf Side.buy (496 / 5) (4 / 5)).1
        (mirrorOf Side.buy (496 / 5) (4 / 5)).2 (4 / 5)).2 - 496 / 5| ≤ 4 / 5 :=
  C2_mirror (496 / 5) (4 / 5) Side.buy (by norm_num)

/-- Claim C4, counterexample: fifteen candles all at price 100 give a
computed ATR of 0, yet the bound computation returns the degenerate band
(100, 100), not the fixed 5% band (95, 105). -/
theorem C4_counterexample :
    calculate_atr (klinesConst.map Kline.high) (klinesConst.map Kline.low)
      (klinesConst.map Kline.close) 14 = 0 ∧
    calculate_atr_bounds klinesConst 100 = (100, 100) ∧
    calculate_atr_bounds klinesConst 100 ≠ (100 * (95 / 100), 100 * (105 / 100)) := by
  with_unfolding_all decide

/-- Claim C4, amended: the fixed 5% band (price·0.95, price·1.05) is returned
exactly when no candle data is available; when data is present and the
computed ATR is zero the bound computation instead returns the degenerate
band (price, price). -/
theorem C4_amended (klines : List Kline) (p : ℚ) :
    (klines = [] →
      calculate_atr_bounds klines p = (p * (95 / 100), p * (105 / 100))) ∧
    (klines ≠ [] →
      calculate_atr (klines.map Kline.high) (klines.map Kline.low)
        (klines.map Kline.close) 14 = 0 →
      calculate_atr_bounds klines p = (p, p)) := by
  constructor
  · intro h
    simp [calculate_atr_bounds, h]
  · intro h hz
    simp [calculate_atr_bounds, h, atr_bounds, hz]

/-- Claim C4 witness: the amended statement at the constant candle list and
price 100. -/
theorem C4_amended_witness : calculate_atr_bounds klinesConst 100 = (100, 100) :=
  (C4_amended klinesConst 100).2 (by with_unfolding_all decide)
    (by with_unfolding_all decide)

/-- Claim C5, counterexample: a filled sell at 96.5 with bounds (96, 104) and
spread 0.8 has its mirror buy at 95.7 below the lower bound; the mirror is
skipped and no profit is fed into the PnL ledger, although the claim requires
totalPnl to grow by size·spread = 0.8. -/
theorem C5_counterexample :
    (handle_filled_order sandboxPlace cfg1 [] pnl0 fillSell965).2.total_pnl ≠
      pnl0.total_pnl + fillSell965.size * cfg1.spread ∧
    (handle_filled_order sandboxPlace cfg1 [] pnl0 fillSell965).2.trades = [] := by
  with_unfolding_all decide

/-- Claim C5, amended: for every order fill whose mirror order is within
bounds and whose placement succeeds, the profit attributed to the fill equals
filled.size · spread and is fed into the PnL ledger: added to totalPnl and
appended to the trade sequence. -/
theorem C5_amended (place : Side → ℚ → ℚ → Option Order)
    (cfg : GridConfig) (active : List Order) (pnl : PnlData) (filled mo : Order)
    (hb : mirror_in_bounds cfg (mirrorOf filled.side filled.price cfg.spread).1
      (mirrorOf filled.side filled.price cfg.spread).2 = true)
    (hp : place (mirrorOf filled.side filled.price cfg.spread).1
      (mirrorOf filled.side filled.price cfg.spread).2 filled.size = some mo) :
    (handle_filled_order place cfg active pnl filled).2.total_pnl =
      pnl.total_pnl + filled.size * cfg.spread ∧
    (handle_filled_order place cfg active pnl filled).2.trades =
      pnl.trades ++ [filled.size * cfg.spread] := by
  simp [handle_filled_order, handle_step, hb, hp, update_pnl]

/-- Claim C5 witness: the amended statement at the in-bounds scenario — a
filled buy at 99.2 whose mirror sell at 100.0 is placed; the ledger gains
profit 1 · 0.8. -/
theorem C5_amended_witness :
    (handle_filled_order sandboxPlace cfg1 [] pnl0 fillBuy992).2.total_pnl =
      pnl0.total_pnl + fillBuy992.size * cfg1.spread ∧
    (handle_filled_order sandboxPlace cfg1 [] pnl0 fillBuy992).2.trades =
      pnl0.trades ++ [fillBuy992.size * cfg1.spread] :=
  C5_amended sandboxPlace cfg1 [] pnl0 fillBuy992 mirrorSell100
    (by with_unfolding_all decide) (by with_unfolding_all decide)

/-- Claim C3, counterexample: with bounds (96, 104) and spread 0.8 but a
current price of 200 (the price is re-fetched when the ladder is built and is
not checked against the bounds), the initial ladder places buy orders at
199.2 … 196.0 — all strictly above the upper bound, because buys are only
checked against the lower bound. -/
theorem C3_counterexample :
    (create_initial_orders sandboxPlace cfg1 200).any
      (fun o => decide (cfg1.upper_bound < o.price)) = true := by
  with_unfolding_all decide

/-- Claim C3, amended: the bounds check is one-sided — every placed order
(initial ladder or mirror) satisfies the check for its own side: a buy is
never below lowerBound and a sell is never above upperBound; orders appearing
after a fill either were already active or satisfy this one-sided bound.
(The code never compares a buy against the upper bound or a sell against the
lower bound.)  The placement oracle is assumed to echo the requested side and
price, as both the sandbox and the exchange branch of place_order do. -/
theorem C3_amended (place : Side → ℚ → ℚ → Option Order)
    (hplace : ∀ s p sz o, place s p sz = some o → o.side = s ∧ o.price = p)
    (cfg : GridConfig) (current_price : ℚ) (active : List Order)
    (pnl : PnlData) (filled : Order) :
    (∀ o ∈ create_initial_orders place cfg current_price,
        (o.side = Side.buy → cfg.lower_bound ≤ o.price) ∧
        (o.side = Side.sell → o.price ≤ cfg.upper_bound)) ∧
    (∀ o ∈ (handle_filled_order place cfg active pnl filled).1,
        o ∈ active ∨
        ((o.side = Side.buy → cfg.lower_bound ≤ o.price) ∧
         (o.side = Side.sell → o.price ≤ cfg.upper_bound))) := by
  constructor
  · intro o ho
    simp only [create_initial_orders, List.mem_append, List.mem_filterMap,
      List.mem_range] at ho
    rcases ho with ⟨i, _, hio⟩ | ⟨i, _, hio⟩
    · by_cases hc : cfg.lower_bound ≤ current_price - ((i : ℚ) + 1) * cfg.spread
      · rw [if_pos hc] at hio
        obtain ⟨hs, hp⟩ := hplace _ _ _ _ hio
        refine ⟨fun _ => ?_, fun hsell => ?_⟩
        · rw [hp]; exact hc
        · rw [hs] at hsell; exact absurd hsell (by simp)
      · rw [if_neg hc] at hio; exact absurd hio (by simp)
    · by_cases hc : current_price + ((i : ℚ) + 1) * cfg.spread ≤ cfg.upper_bound
      · rw [if_pos hc] at hio
        obtain ⟨hs, hp⟩ := hplace _ _ _ _ hio
        refine ⟨fun hbuy => ?_, fun _ => ?_⟩
        · rw [hs] at hbuy; exact absurd hbuy (by simp)
        · rw [hp]; exact hc
      · rw [if_neg hc] at hio; exact absurd hio (by simp)
  · intro o ho
    simp only [handle_filled_order, List.mem_filter] at ho
    obtain ⟨ho1, _⟩ := ho
    rw [handle_step] at ho1
    cases hb : mirror_in_bounds cfg (mirrorOf filled.side filled.price cfg.spread).1
        (mirrorOf filled.side filled.price cfg.spread).2 with
    | false => rw [hb] at ho1; simp at ho1; exact Or.inl ho1
    | true =>
      rw [hb] at ho1; simp only [if_true] at ho1
      cases hpl : place (mirrorOf filled.side filled.price cfg.spread).1
          (mirrorOf filled.side filled.price cfg.spread).2 filled.size with
      | none => rw [hpl] at ho1; exact Or.inl ho1
      | some mo =>
        rw [hpl] at ho1
        rcases List.mem_append.mp ho1 with h | h
        · exact Or.inl h
        · right
          obtain ⟨hs, hp⟩ := hplace _ _ _ _ hpl
          have hom : o = mo := by simpa using h
          subst hom
          simp only [mirror_in_bounds, Bool.or_eq_true, Bool.and_eq_true,
            decide_eq_true_eq] at hb
          rcases hb with ⟨hside, hle⟩ | ⟨hside, hle⟩
          · refine ⟨fun _ => ?_, fun hsell => ?_⟩
            · rw [hp]; exact hle
            · rw [hs, hside] at hsell; exact absurd hsell (by simp)
          · refine ⟨fun hbuy => ?_, fun _ => ?_⟩
            · rw [hs, hside] at hbuy; exact absurd hbuy (by simp)
            · rw [hp]; exact hle

set_option maxRecDepth 4000 in
/-- Claim C3 witness: the amended statement at the scenario ladder — the buy
rung at 99.2 of the (96, 104) grid respects its one-sided bound. -/
theorem C3_amended_witness : cfg1.lower_bound ≤ buyRung992.price :=
  ((C3_amended sandboxPlace
      (by intro s p sz o h
          simp only [sandboxPlace, Option.some.injEq] at h
          subst h
          exact ⟨rfl, rfl⟩)
      cfg1 100 [] pnl0 fillBuy992).1 buyRung992
    (by with_unfolding_all decide)).1 rfl

/-- Claim C6: the adjustment cycle tears the grid down and rebuilds exactly
when one of the relative bound drifts exceeds the fixed 5% threshold; below
threshold the config and the active set are untouched; above it the config
carries the new bounds with recomputed spread and increment and the active
set is the freshly built ladder; and the drift from (96, 104) to (90, 110)
triggers the rebuild. -/
theorem C6_adjust (place : Side → ℚ → ℚ → Option Order)
    (cfg : GridConfig) (active : List Order) (nl nu cp : ℚ) :
    (adjust_needed cfg nl nu = true ↔
      5 / 100 < |nl - cfg.lower_bound| / cfg.lower_bound ∨
      5 / 100 < |nu - cfg.upper_bound| / cfg.upper_bound) ∧
    (adjust_needed cfg nl nu = false →
      check_and_adjust_grid place cfg active nl nu cp = (cfg, active)) ∧
    (adjust_needed cfg nl nu = true →
      (check_and_adjust_grid place cfg active nl nu cp).1.lower_bound = nl ∧
      (check_and_adjust_grid place cfg active nl nu cp).1.upper_bound = nu ∧
      (check_and_adjust_grid place cfg active nl nu cp).1.spread =
        (calculate_grid_parameters cfg.grid_size cfg.budget nl nu).1 ∧
      (check_and_adjust_grid place cfg active nl nu cp).1.increment =
        (calculate_grid_parameters cfg.grid_size cfg.budget nl nu).2 ∧
      (check_and_adjust_grid place cfg active nl nu cp).2 =
        create_initial_orders place
          (check_and_adjust_grid place cfg active nl nu cp).1 cp) ∧
    adjust_needed cfg1 90 110 = true := by
  refine ⟨?_, ?_, ?_, by with_unfolding_all decide⟩
  · simp [adjust_needed, threshold]
  · intro h
    simp [check_and_adjust_grid, h]
  · intro h
    simp [check_and_adjust_grid, h]

/-- Claim C6 witness: a sub-threshold drift (96, 104) → (95, 105) leaves the
configuration and the active set unchanged. -/
theorem C6_adjust_witness :
    check_and_adjust_grid sandboxPlace cfg1 [] 95 105 100 = (cfg1, []) :=
  (C6_adjust sandboxPlace cfg1 [] 95 105 100).2.1 (by with_unfolding_all decide)

/-- Filtering for an order id from a list already filtered against that id
gives nothing. -/
theorem filter_id_of_filter_ne (l : List Order) (fid : String) :
    (l.filter (fun o => o.order_id != fid)).filter
      (fun o => o.order_id == fid) = [] := by
  induction l with
  | nil => rfl
  | cons a t ih =>
      by_cases h : a.order_id = fid <;> simp [List.filter_cons, h, ih]

/-- Claim C10: after handle_filled_order completes, no order with the filled
order id remains in the active set — the id filter runs in every branch,
including when the mirror is skipped or its placement fails. -/
theorem C10_removal (place : Side → ℚ → ℚ → Option Order)
    (cfg : GridConfig) (active : List Order) (pnl : PnlData) (filled : Order) :
    (handle_filled_order place cfg active pnl filled).1.filter
      (fun o => o.order_id == filled.order_id) = [] := by
  simp only [handle_filled_order]
  exact filter_id_of_filter_ne (handle_step place cfg active pnl filled).1
    filled.order_id

/-- Sum of a mapped range as a finite sum. -/
theorem list_sum_map_range (f : ℕ → ℚ) (n : ℕ) :
    ((List.range n).map f).sum = ∑ i ∈ Finset.range n, f i := by
  induction n with
  | zero => simp
  | succ m ih => simp [List.range_succ, Finset.sum_range_succ, ih]

/-- Sum of the tail of a mapped range as a sum over an interval. -/
theorem sum_drop_map_range (f : ℕ → ℚ) (m n : ℕ) (h : m ≤ n) :
    (((List.range n).map f).drop m).sum = ∑ i ∈ Finset.Ico m n, f i := by
  obtain ⟨k, rfl⟩ := Nat.exists_eq_add_of_le h
  rw [List.range_add, List.map_append, List.drop_left' (by simp),
    List.map_map, list_sum_map_range, Finset.sum_Ico_eq_sum_range]
  simp [Function.comp]

/-- Claim C7: with fewer than period+1 samples the ATR is the 0 sentinel;
with at least period+1 samples it is the simple average of the last `period`
true ranges, the true range at index i ≥ 1 being
max(high[i]-low[i], |high[i]-close[i-1]|, |low[i]-close[i-1]|); and a
constant-price series always yields ATR 0. -/
theorem C7_atr (highs lows closes : List ℚ) (period : ℕ) (hper : 1 ≤ period) :
    (highs.length < period + 1 → calculate_atr highs lows closes period = 0) ∧
    (period + 1 ≤ highs.length →
      calculate_atr highs lows closes period =
        (∑ i ∈ Finset.Ico (highs.length - period) highs.length,
          trueRangeAt highs lows closes i) / (period : ℚ)) ∧
    (∀ (c : ℚ) (n : ℕ),
      calculate_atr (List.replicate n c) (List.replicate n c)
        (List.replicate n c) period = 0) := by
  refine ⟨?_, ?_, ?_⟩
  · intro h
    rw [calculate_atr, if_pos h]
  · intro h
    have hlt : ¬ highs.length < period + 1 := by omega
    have hlen : (trueRanges highs lows closes).length = highs.length - 1 := by
      simp [trueRanges]
    have hnl : ¬ (trueRanges highs lows closes).length < period := by
      rw [hlen]; omega
    rw [calculate_atr, if_neg hlt, if_neg hnl, hlen, trueRanges,
      sum_drop_map_range _ _ _ (by omega)]
    congr 1
    rw [Finset.sum_Ico_eq_sum_range, Finset.sum_Ico_eq_sum_range]
    have e1 : highs.length - 1 - (highs.length - 1 - period) = period := by omega
    have e2 : highs.length - (highs.length - period) = period := by omega
    rw [e1, e2]
    refine Finset.sum_congr rfl fun i _ => ?_
    have e3 : highs.length - 1 - period + i + 1 = highs.length - period + i := by
      omega
    rw [e3]
  · intro c n
    by_cases hn : n < period + 1
    · rw [calculate_atr, if_pos (by simpa using hn)]
    · have h0 : ∀ x ∈ trueRanges (List.replicate n c) (List.replicate n c)
          (List.replicate n c), x = 0 := by
        intro x hx
        simp only [trueRanges, List.length_replicate, List.mem_map,
          List.mem_range] at hx
        obtain ⟨j, hj, rfl⟩ := hx
        have hj1 : j + 1 < n := by omega
        have g1 : (List.replicate n c)[j + 1]?.getD 0 = c := by
          rw [List.getElem?_replicate, if_pos hj1]; rfl
        have g2 : (List.replicate n c)[j]?.getD 0 = c := by
          rw [List.getElem?_replicate, if_pos (show j < n by omega)]; rfl
        simp [trueRangeAt, g1, g2]
      rw [calculate_atr, if_neg (by simpa using hn)]
      by_cases hb : (trueRanges (List.replicate n c) (List.replicate n c)
          (List.replicate n c)).length < period
      · rw [if_pos hb, List.sum_eq_zero h0, zero_div]
      · rw [if_neg hb,
          List.sum_eq_zero (fun x hx => h0 x (List.mem_of_mem_drop hx)), zero_div]

/-- Claim C7 witness: the ATR of the three-candle series (10,12,11)/(9,10,10)/
(9,11,10) with period 2 is the average of its last two true ranges. -/
theorem C7_atr_witness :
    calculate_atr [10, 12, 11] [9, 10, 10] [9, 11, 10] 2 =
      (∑ i ∈ Finset.Ico (([10, 12, 11] : List ℚ).length - 2)
          ([10, 12, 11] : List ℚ).length,
        trueRangeAt [10, 12, 11] [9, 10, 10] [9, 11, 10] i) / (2 : ℚ) :=
  (C7_atr [10, 12, 11] [9, 10, 10] [9, 11, 10] 2 (by norm_num)).2.1 (by decide)

/-- One `add_trade` call sets the streak type to the outcome type of the trade and
either extends the streak by one (same type as before) or resets it to 1. -/
theorem add_trade_streak (s : PerfState) (p : ℚ) :
    (add_trade s p).current_streak_type = some (tradeType p) ∧
    (add_trade s p).current_streak =
      (if s.current_streak_type = some (tradeType p) then s.current_streak + 1
       else 1) := by
  by_cases hp : 0 < p <;>
    simp [add_trade, update_streak, tradeType, hp] <;>
    constructor <;> split <;> simp_all

/-- The streak of a tracker fed a trade sequence from fresh equals the
trailing run of same-type outcomes, and the streak type is the type of the
last trade. -/
theorem foldl_streak (ps : List ℚ) :
    (List.foldl add_trade PerfState.fresh ps).current_streak_type =
      ((ps.map tradeType).reverse).head? ∧
    (List.foldl add_trade PerfState.fresh ps).current_streak =
      trailingRun (ps.map tradeType) := by
  induction ps using List.reverseRecOn with
  | nil => simp [PerfState.fresh, trailingRun, leadingRun]
  | append_singleton l a ih =>
    obtain ⟨iht, ihs⟩ := ih
    have h := add_trade_streak (List.foldl add_trade PerfState.fresh l) a
    rw [List.foldl_append, List.foldl_cons, List.foldl_nil]
    have hrevmap : ((l ++ [a]).map tradeType).reverse =
        tradeType a :: (l.map tradeType).reverse := by simp
    refine ⟨by rw [h.1, hrevmap, List.head?_cons], ?_⟩
    rw [h.2, iht, trailingRun, hrevmap]
    rw [trailingRun] at ihs
    cases hrev : (l.map tradeType).reverse with
    | nil => simp [leadingRun]
    | cons b rest =>
      rw [hrev] at ihs
      have hLR : leadingRun (tradeType a :: b :: rest) =
          if tradeType a = b then leadingRun (b :: rest) + 1 else 1 := rfl
      rw [hLR, List.head?_cons, ihs]
      by_cases hba : b = tradeType a
      · rw [if_pos (by rw [hba]), if_pos hba.symm]
      · rw [if_neg (by simpa using hba), if_neg (fun h => hba h.symm)]

/-- The historical win/loss streak maxima never decrease across a call. -/
theorem add_trade_max_mono (s : PerfState) (p : ℚ) :
    s.max_consecutive_wins ≤ (add_trade s p).max_consecutive_wins ∧
    s.max_consecutive_losses ≤ (add_trade s p).max_consecutive_losses := by
  by_cases hp : 0 < p <;>
    simp [add_trade, update_streak, tradeType, hp] <;>
    constructor <;> split <;> simp [le_max_iff]

/-- Claim C9: add_trade counts profit > 0 as a win and anything else
(zero included) as a loss; from a fresh tracker the streak equals the number
of trailing same-type outcomes of the trade sequence; and the historical
win/loss streak maxima never decrease from one call to the next. -/
theorem C9_perf :
    (∀ (s : PerfState) (p : ℚ),
        (add_trade s p).trades_count = s.trades_count + 1 ∧
        (add_trade s p).winning_trades =
          s.winning_trades + (if 0 < p then 1 else 0) ∧
        (add_trade s p).losing_trades =
          s.losing_trades + (if 0 < p then 0 else 1)) ∧
    (∀ ps : List ℚ,
        (List.foldl add_trade PerfState.fresh ps).current_streak =
          trailingRun (ps.map tradeType)) ∧
    (∀ (s : PerfState) (p : ℚ),
        s.max_consecutive_wins ≤ (add_trade s p).max_consecutive_wins ∧
        s.max_consecutive_losses ≤ (add_trade s p).max_consecutive_losses) := by
  refine ⟨?_, fun ps => (foldl_streak ps).2, add_trade_max_mono⟩
  intro s p
  by_cases hp : 0 < p <;>
    simp [add_trade, update_streak, tradeType, hp] <;>
    refine ⟨?_, ?_, ?_⟩ <;> split <;> simp_all

end KuBot
